import Mathlib

/-!
# Verification of the priorauth-tao decision pipeline

Shallow embedding of the two source files of `priorauth-tao`:

* `src/agent.py` — the FastAPI agent exposing `submit_prior_auth`
  (prompt synthesis, reasoning call, decision extraction with a degraded
  fallback) and `analyze_appeal`.
* `src/miner.py` — the Bittensor miner exposing `process_authorization`
  (via `process_pa_with_claude`) and the validator scoring function
  `score_decision`.

Python floats are modelled as rationals (`ℚ`), machine integers as `Int`,
JSON values as an inductive `Json` type, and `json.loads` as an executable
fuel-based parser.  External effects (the coverage HTTP call and the
Anthropic reasoning call) are modelled by explicit outcome types fed into
the pipeline functions.
-/

/-- JSON values, the result type of `json.loads`. Objects are ordered
key/value association lists (the concrete inputs used below never contain
duplicate keys, so first-match lookup agrees with Python's dict). -/
inductive Json where
  | null : Json
  | bool (b : Bool) : Json
  | num (q : ℚ) : Json
  | str (s : String) : Json
  | arr (elems : List Json) : Json
  | obj (fields : List (String × Json)) : Json
deriving Repr

/-- Key lookup in a JSON object's field list (Python `dict.__getitem__`,
returning `none` when the key is absent, i.e. `dict.get(k)` semantics). -/
def getKey (kvs : List (String × Json)) (k : String) : Option Json :=
  match kvs with
  | [] => none
  | (k₂, v) :: rest => if k₂ = k then some v else getKey rest k

/-- Python `dict.get(k, default)`: the stored value when the key is
present (even if it is `null`), the default otherwise. -/
def getD (kvs : List (String × Json)) (k : String) (default : Json) : Json :=
  match getKey kvs k with
  | some v => v
  | none => default

/-! ## Python string primitives

`str.find`, `str.rfind` and slicing `s[i:j]`, with Python's semantics:
`find`/`rfind` return `-1` when the character is absent, and slice
indices may be negative (counting from the end) and are clamped. -/

/-- Index of the first occurrence of `t` in `cs`, offset by `i`. -/
def findCharAux (cs : List Char) (t : Char) (i : Nat) : Option Nat :=
  match cs with
  | [] => none
  | c :: rest => if c = t then some i else findCharAux rest t (i + 1)

/-- Python `s.find(c)`: index of the first occurrence, `-1` if absent. -/
def pyFind (s : String) (c : Char) : Int :=
  match findCharAux s.data c 0 with
  | some i => (i : Int)
  | none => -1

/-- Python `s.rfind(c)`: index of the last occurrence, `-1` if absent
(computed as a forward search on the reversed character list). -/
def pyRfind (s : String) (c : Char) : Int :=
  match findCharAux s.data.reverse c 0 with
  | some i => ((s.data.length - 1 - i : Nat) : Int)
  | none => -1

/-- Normalization of one Python slice index against a length:
negative indices count from the end and everything is clamped to
`[0, len]`. -/
def pySliceNorm (len : Nat) (i : Int) : Nat :=
  if i < 0 then ((len : Int) + i).toNat else min i.toNat len

/-- Python `s[i:j]`. -/
def pySlice (s : String) (i j : Int) : String :=
  ⟨(s.data.drop (pySliceNorm s.data.length i)).take
    (pySliceNorm s.data.length j - pySliceNorm s.data.length i)⟩

/-- The candidate JSON span of a completion:
`text[text.find("\x7b") : text.rfind("\x7d") + 1]`
(both extractors in `agent.py` and `miner.py` use exactly this). -/
def extractSpan (text : String) : String :=
  pySlice text (pyFind text '\x7b') (pyRfind text '\x7d' + 1)

/-! ## A model of `json.loads`

Fuel-based recursive-descent JSON parser over the character list.
It supports objects, arrays, strings (with the common escapes), signed
decimal numbers, `true`/`false`/`null`, and insists — as `json.loads`
does — that nothing but whitespace follows the parsed value. -/

/-- JSON whitespace. -/
def isJsonWs (c : Char) : Bool :=
  c = ' ' || c = '\n' || c = '\t' || c = '\r'

/-- Drop leading JSON whitespace. -/
def skipWs (cs : List Char) : List Char :=
  match cs with
  | [] => []
  | c :: rest => if isJsonWs c then skipWs rest else c :: rest

/-- Parse the body of a string literal after the opening quote. -/
def parseStringBody (cs : List Char) (acc : List Char) : Option (String × List Char) :=
  match cs with
  | [] => none
  | '"' :: rest => some (⟨acc.reverse⟩, rest)
  | '\\' :: e :: rest =>
    match e with
    | '"' => parseStringBody rest ('"' :: acc)
    | '\\' => parseStringBody rest ('\\' :: acc)
    | '/' => parseStringBody rest ('/' :: acc)
    | 'n' => parseStringBody rest ('\n' :: acc)
    | 't' => parseStringBody rest ('\t' :: acc)
    | 'r' => parseStringBody rest ('\r' :: acc)
    | _ => none
  | '\\' :: [] => none
  | c :: rest => parseStringBody rest (c :: acc)

/-- Parse a run of decimal digits, returning their value and count. -/
def parseDigits (cs : List Char) (val : Nat) (count : Nat) : Nat × Nat × List Char :=
  match cs with
  | [] => (val, count, [])
  | c :: rest =>
    if c.isDigit then parseDigits rest (val * 10 + (c.toNat - 48)) (count + 1)
    else (val, count, c :: rest)

/-- Parse an unsigned JSON number (integer part plus optional fraction). -/
def parseNumCore (cs : List Char) : Option (ℚ × List Char) :=
  match cs with
  | c :: _ =>
    if c.isDigit then
      let (ip, _, rest₁) := parseDigits cs 0 0
      match rest₁ with
      | '.' :: rest₂ =>
        match rest₂ with
        | d :: _ =>
          if d.isDigit then
            let (fp, fc, rest₃) := parseDigits rest₂ 0 0
            some (((ip : ℚ) + (fp : ℚ) / ((10 : ℚ) ^ fc)), rest₃)
          else none
        | [] => none
      | _ => some ((ip : ℚ), rest₁)
    else none
  | [] => none

/-- Parse a JSON number with optional leading minus sign. -/
def parseNum (cs : List Char) : Option (ℚ × List Char) :=
  match cs with
  | '-' :: rest =>
    match parseNumCore rest with
    | some (q, r) => some (-q, r)
    | none => none
  | _ => parseNumCore cs

mutual

/-- Parse one JSON value from the front of `cs`. -/
def parseValue (fuel : Nat) (cs : List Char) : Option (Json × List Char) :=
  match fuel with
  | 0 => none
  | fuel + 1 =>
    match skipWs cs with
    | [] => none
    | c :: rest =>
      match c with
      | '\x7b' =>
        match skipWs rest with
        | '\x7d' :: rest₂ => some (.obj [], rest₂)
        | rest₂ => parseMembers fuel rest₂ []
      | '[' =>
        match skipWs rest with
        | ']' :: rest₂ => some (.arr [], rest₂)
        | rest₂ => parseItems fuel rest₂ []
      | '"' =>
        match parseStringBody rest [] with
        | some (s, rest₂) => some (.str s, rest₂)
        | none => none
      | 't' =>
        match rest with
        | 'r' :: 'u' :: 'e' :: rest₂ => some (.bool true, rest₂)
        | _ => none
      | 'f' =>
        match rest with
        | 'a' :: 'l' :: 's' :: 'e' :: rest₂ => some (.bool false, rest₂)
        | _ => none
      | 'n' =>
        match rest with
        | 'u' :: 'l' :: 'l' :: rest₂ => some (.null, rest₂)
        | _ => none
      | _ =>
        match parseNum (c :: rest) with
        | some (q, rest₂) => some (.num q, rest₂)
        | none => none

/-- Parse the members of a JSON object (positioned at the first key),
accumulating parsed pairs in reverse. -/
def parseMembers (fuel : Nat) (cs : List Char) (acc : List (String × Json)) :
    Option (Json × List Char) :=
  match fuel with
  | 0 => none
  | fuel + 1 =>
    match skipWs cs with
    | '"' :: rest =>
      match parseStringBody rest [] with
      | some (k, rest₂) =>
        match skipWs rest₂ with
        | ':' :: rest₃ =>
          match parseValue fuel rest₃ with
          | some (v, rest₄) =>
            match skipWs rest₄ with
            | ',' :: rest₅ => parseMembers fuel rest₅ ((k, v) :: acc)
            | '\x7d' :: rest₅ => some (.obj ((k, v) :: acc).reverse, rest₅)
            | _ => none
          | none => none
        | _ => none
      | none => none
    | _ => none

/-- Parse the items of a JSON array (positioned at the first element),
accumulating parsed elements in reverse. -/
def parseItems (fuel : Nat) (cs : List Char) (acc : List Json) :
    Option (Json × List Char) :=
  match fuel with
  | 0 => none
  | fuel + 1 =>
    match parseValue fuel cs with
    | some (v, rest) =>
      match skipWs rest with
      | ',' :: rest₂ => parseItems fuel rest₂ (v :: acc)
      | ']' :: rest₂ => some (.arr (v :: acc).reverse, rest₂)
      | _ => none
    | none => none

end

/-- The model of `json.loads`: parse one value and require that only
whitespace remains; `none` models a raised `json.JSONDecodeError`. -/
def parseJson (s : String) : Option Json :=
  match parseValue (s.data.length + 1) s.data with
  | some (v, rest) =>
    match skipWs rest with
    | [] => some v
    | _ => none
  | none => none

/-! ## Typed field readers (pydantic validation)

The extracted dict values are fed to pydantic models whose fields are
typed `str`, `List[str]`, `Optional[str]`, `float`, `bool`, `int`.
A wrongly-typed value makes the model constructor raise a validation
error, modelled as `none`. -/

/-- pydantic `str` field: accepts exactly a JSON string. -/
def asStr : Json → Option String
  | .str s => some s
  | _ => none

/-- pydantic `Optional[str]` field: accepts `null` or a JSON string. -/
def asOptStr : Json → Option (Option String)
  | .null => some none
  | .str s => some (some s)
  | _ => none

/-- pydantic `float` field: accepts a JSON number (ints are coerced). -/
def asNum : Json → Option ℚ
  | .num q => some q
  | _ => none

/-- pydantic `bool` field: accepts a JSON boolean. -/
def asBool : Json → Option Bool
  | .bool b => some b
  | _ => none

/-- pydantic `int` field: accepts a JSON number with integral value. -/
def asInt : Json → Option Int
  | .num q => if q.den = 1 then some q.num else none
  | _ => none

/-- pydantic `List[str]` field: accepts a JSON array of strings. -/
def asStrList (j : Json) : Option (List String) :=
  match j with
  | .arr elems => strElems elems
  | _ => none
where
  strElems : List Json → Option (List String)
    | [] => some []
    | .str s :: rest =>
      match strElems rest with
      | some l => some (s :: l)
      | none => none
    | _ => none

/-! ## Data model of `src/agent.py` -/

/-- `PARequest` of `src/agent.py` (the validated request body). -/
structure AgentPARequest where
  patient_age : Int
  diagnosis_code : String
  procedure_code : String
  medication : Option String
  insurance_plan : String
  clinical_notes : Option String
  previous_treatments : Option (List String)
deriving Repr, DecidableEq

/-- `PADecision` of `src/agent.py` (the response model of
`/submit-pa`). -/
structure PADecision where
  request_id : String
  status : String
  decision : String
  rationale : String
  criteria_met : List String
  criteria_missing : List String
  alternative_recommendations : List String
  appeal_guidance : Option String
  confidence : ℚ
  processing_time_ms : Int
deriving Repr, DecidableEq

/-- `AppealAnalysis` of `src/agent.py` (the response model of
`/analyze-appeal`). -/
structure AppealAnalysis where
  appeal_id : String
  likelihood_of_success : ℚ
  strongest_arguments : List String
  required_documentation : List String
  recommended_approach : String
  estimated_review_days : Int
deriving Repr, DecidableEq

/-- One entry of `PA_CRITERIA_DB`. -/
structure CriteriaInfo where
  name : String
  common_criteria : List String
deriving Repr, DecidableEq

/-- The static `PA_CRITERIA_DB` table of `src/agent.py`. -/
def PA_CRITERIA_DB : List (String × CriteriaInfo) :=
  [("Z79.4", ⟨"Long-term insulin use",
      ["Type 1 or 2 diabetes diagnosis", "A1c > 7%", "Diet/oral medication failure"]⟩),
   ("M54.5", ⟨"Low back pain",
      ["6 weeks conservative treatment", "PT failure documented", "Neurological symptoms present"]⟩),
   ("F32.1", ⟨"Major depressive disorder",
      ["2+ antidepressant failures", "PHQ-9 score > 10", "Psychiatrist evaluation"]⟩),
   ("J45.50", ⟨"Severe persistent asthma",
      ["ICS/LABA failure", "FEV1 < 60%", "2+ exacerbations/year"]⟩),
   ("E11.9", ⟨"Type 2 diabetes",
      ["BMI documented", "Metformin trial", "A1c monitoring"]⟩)]

/-- `PA_CRITERIA_DB.get(code, \x7b\x7d)`: lookup in the static table. -/
def criteriaLookup (db : List (String × CriteriaInfo)) (code : String) :
    Option CriteriaInfo :=
  match db with
  | [] => none
  | (k, v) :: rest => if k = code then some v else criteriaLookup rest code

/-! ## Coverage lookup (`verify_insurance_criteria`) -/

/-- Outcome of the outbound CMS request made by
`verify_insurance_criteria`: the `httpx` call either raises a transport
error (or times out), or yields a response with a status code and a body
whose JSON decoding (`r.json()`) may itself fail (`none`). -/
inductive CoverageOutcome where
  | transportError : CoverageOutcome
  | response (status : Nat) (body : Option Json) : CoverageOutcome
deriving Repr

/-- The fallback dict `\x7b"source": "fallback", "plan": plan,
"procedure": procedure\x7d` returned from the bare `except` branch. -/
def coverageFallback (plan procedure : String) : Json :=
  .obj [("source", .str "fallback"), ("plan", .str plan), ("procedure", .str procedure)]

/-- The non-200 dict `\x7b"source": "CMS", "status": "no specific criteria
found", "plan": plan\x7d`. -/
def coverageNotFound (plan : String) : Json :=
  .obj [("source", .str "CMS"), ("status", .str "no specific criteria found"),
        ("plan", .str plan)]

/-- The 200 dict `\x7b"source": "CMS", "criteria": r.json()\x7d`. -/
def coverageCms (criteria : Json) : Json :=
  .obj [("source", .str "CMS"), ("criteria", criteria)]

/-- `verify_insurance_criteria(plan, procedure)` from `src/agent.py`:
the whole request body sits inside `try`, and the bare `except` returns
the fallback dict, so a transport error, a timeout, or a failing
`r.json()` all yield the fallback; a non-200 response yields the
"no specific criteria found" dict; a 200 response with a decodable body
yields the CMS criteria dict.  Total by construction: it never raises. -/
def verify_insurance_criteria (plan procedure : String) (outcome : CoverageOutcome) :
    Json :=
  match outcome with
  | .transportError => coverageFallback plan procedure
  | .response status body =>
    if status = 200 then
      match body with
      | some j => coverageCms j
      | none => coverageFallback plan procedure
    else coverageNotFound plan

/-! ## Decision extraction in `src/agent.py` -/

/-- The hard-coded degradation dict built by `submit_prior_auth` when
`json.loads` raises on the extracted span (rationale is the raw
completion text, confidence is `0.3`). -/
def agentDegradedDict (text : String) : List (String × Json) :=
  [("status", .str "PENDING_INFO"),
   ("decision", .str "Manual review required"),
   ("rationale", .str text),
   ("criteria_met", .arr []),
   ("criteria_missing", .arr [.str "Unable to parse decision"]),
   ("alternative_recommendations", .arr []),
   ("appeal_guidance", .null),
   ("confidence", .num (3/10))]

/-- Construction of the `PADecision` pydantic model from the result
dict, mirroring the keyword arguments of the `PADecision(...)` call:
every payload field is read with `result.get(key, default)` — absent
keys fall back to their per-field default (`"PENDING_INFO"`, `""`,
empty lists, `None`, `0.5`) — and a wrongly-typed present value makes
pydantic validation fail (`none`). -/
def agentBuild (request_id : String) (processing_time_ms : Int)
    (kvs : List (String × Json)) : Option PADecision :=
  match asStr (getD kvs "status" (.str "PENDING_INFO")),
      asStr (getD kvs "decision" (.str "")),
      asStr (getD kvs "rationale" (.str "")),
      asStrList (getD kvs "criteria_met" (.arr [])),
      asStrList (getD kvs "criteria_missing" (.arr [])),
      asStrList (getD kvs "alternative_recommendations" (.arr [])),
      asOptStr (getD kvs "appeal_guidance" .null),
      asNum (getD kvs "confidence" (.num (1/2))) with
  | some st, some de, some ra, some met, some mis, some alt, some ag, some conf =>
    some ⟨request_id, st, de, ra, met, mis, alt, ag, conf, processing_time_ms⟩
  | _, _, _, _, _, _, _, _ => none

/-- The extraction stage of `submit_prior_auth`: take the brace span of
the completion, `json.loads` it (falling back to the degradation dict on
a decode error), and build the `PADecision`.  `none` models an uncaught
exception (a non-dict parse result or a pydantic validation error). -/
def agentExtract (request_id : String) (processing_time_ms : Int)
    (text : String) : Option PADecision :=
  match parseJson (extractSpan text) with
  | none => agentBuild request_id processing_time_ms (agentDegradedDict text)
  | some (.obj kvs) => agentBuild request_id processing_time_ms kvs
  | some _ => none

/-! ## The reasoning call and the full agent pipeline -/

/-- Outcome of `client.messages.create(...)`: the Anthropic call either
raises (timeout, transport error, non-success status) — carrying its
underlying cause — or returns a completion whose text is
`response.content[0].text`. -/
inductive ReasoningOutcome where
  | failure (cause : String) : ReasoningOutcome
  | success (text : String) : ReasoningOutcome
deriving Repr, DecidableEq

/-- The distinct error with which the pipeline fails when the reasoning
call itself fails (the uncaught exception of `client.messages.create`,
carrying the underlying cause). -/
structure ReasoningServiceError where
  cause : String
deriving Repr, DecidableEq

/-- Result of one `submit_prior_auth` request: a propagated
`ReasoningServiceError`, some other uncaught exception (pydantic
validation of a wrongly-typed payload value), or a decision. -/
inductive AgentResult where
  | reasoningError (e : ReasoningServiceError) : AgentResult
  | uncaughtError : AgentResult
  | ok (d : PADecision) : AgentResult
deriving Repr, DecidableEq

/-- `submit_prior_auth` from `src/agent.py`, given the generated request
id, the measured processing time, and the outcome of the reasoning call.
The coverage outcome is consumed only by the prompt (rendered below);
the decision is extracted from the completion text.  If the reasoning
call raises, the exception propagates and extraction is never reached. -/
def submit_prior_auth (request_id : String) (processing_time_ms : Int)
    (outcome : ReasoningOutcome) : AgentResult :=
  match outcome with
  | .failure cause => .reasoningError ⟨cause⟩
  | .success text =>
    match agentExtract request_id processing_time_ms text with
    | some d => .ok d
    | none => .uncaughtError

/-! ## Appeal extraction in `src/agent.py` -/

/-- The fallback dict of `analyze_appeal` built when `json.loads`
raises (the raw completion text lands in `recommended_approach`). -/
def appealFallbackDict (text : String) : List (String × Json) :=
  [("likelihood_of_success", .num (1/2)),
   ("strongest_arguments", .arr []),
   ("required_documentation", .arr []),
   ("recommended_approach", .str text),
   ("estimated_review_days", .num 30)]

/-- The keys `AppealAnalysis(appeal_id=..., **result)` accepts from the
payload: exactly the remaining model fields; any other key is an
unexpected keyword argument and raises `TypeError`. -/
def appealAllowedKeys : List String :=
  ["likelihood_of_success", "strongest_arguments", "required_documentation",
   "recommended_approach", "estimated_review_days"]

/-- Construction of `AppealAnalysis` via
`AppealAnalysis(appeal_id=..., **result)`: unlike the authorization
path there are no `.get` defaults — every model field must be present
in the dict (missing fields are pydantic validation errors), every key
must be an expected keyword, and every value must be well-typed.
`none` models the raised error. -/
def appealBuild (appeal_id : String) (kvs : List (String × Json)) :
    Option AppealAnalysis :=
  if kvs.all (fun kv => kv.1 ∈ appealAllowedKeys) then
    match (getKey kvs "likelihood_of_success").bind asNum,
        (getKey kvs "strongest_arguments").bind asStrList,
        (getKey kvs "required_documentation").bind asStrList,
        (getKey kvs "recommended_approach").bind asStr,
        (getKey kvs "estimated_review_days").bind asInt with
    | some lik, some args, some docs, some app, some days =>
      some ⟨appeal_id, lik, args, docs, app, days⟩
    | _, _, _, _, _ => none
  else none

/-- The extraction stage of `analyze_appeal`: brace span, `json.loads`
with the fallback dict on decode error, then
`AppealAnalysis(appeal_id=..., **result)`. -/
def analyze_appeal_extract (appeal_id : String) (text : String) :
    Option AppealAnalysis :=
  match parseJson (extractSpan text) with
  | none => appealBuild appeal_id (appealFallbackDict text)
  | some (.obj kvs) => appealBuild appeal_id kvs
  | some _ => none

/-! ## Data model of `src/miner.py` -/

/-- `PARequest` of `src/miner.py`. -/
structure MinerPARequest where
  request_id : String
  patient_age : Int
  diagnosis_codes : List String
  procedure_codes : List String
  medication : Option String
  clinical_notes : String
  insurance_plan : String
  prior_treatments : Option (List String)
deriving Repr, DecidableEq

/-- `PADecision` of `src/miner.py`. -/
structure MinerPADecision where
  request_id : String
  approved : Bool
  rationale : String
  confidence : ℚ
  suggested_alternatives : List String
  appeal_guidance : Option String
  processing_time_ms : Int
deriving Repr, DecidableEq

/-- The degraded rationale of `process_pa_with_claude`'s `except`
branch, `f"Processing error: \x7bstr(e)\x7d. Manual review required."`;
the interpolated exception text `str(e)` is abstracted to a fixed
message (no claim depends on its exact content). -/
def minerDegradedRationale : String :=
  "Processing error: could not parse decision JSON. Manual review required."

/-- The degraded `PADecision` of `src/miner.py`'s `except` branch:
`approved=False`, `confidence=0.0`, no alternatives, and
`appeal_guidance` left at its model default `None`. -/
def minerDegraded (request_id : String) (elapsed_ms : Int) : MinerPADecision :=
  ⟨request_id, false, minerDegradedRationale, 0, [], none, elapsed_ms⟩

/-- Construction of the miner `PADecision` from the parsed payload,
mirroring the `decision_json.get(...)` defaults: `approved` defaults to
`False`, `rationale` to `""`, `confidence` to `0.5`,
`suggested_alternatives` to `[]`, `appeal_guidance` to `None`. -/
def minerBuild (request_id : String) (elapsed_ms : Int)
    (kvs : List (String × Json)) : Option MinerPADecision :=
  match asBool (getD kvs "approved" (.bool false)),
      asStr (getD kvs "rationale" (.str "")),
      asNum (getD kvs "confidence" (.num (1/2))),
      asStrList (getD kvs "suggested_alternatives" (.arr [])),
      asOptStr (getD kvs "appeal_guidance" .null) with
  | some ap, some ra, some conf, some alt, some ag =>
    some ⟨request_id, ap, ra, conf, alt, ag, elapsed_ms⟩
  | _, _, _, _, _ => none

/-- The extraction stage of `process_pa_with_claude`: the `try` block
covers span slicing, `json.loads`, and the `PADecision` construction,
but its `except` clause catches only `JSONDecodeError`, `IndexError`
and `KeyError` — a decode failure therefore degrades, while a pydantic
validation error on a wrongly-typed payload value, or the
`AttributeError` of a non-dict parse result, still propagates
(`none`). -/
def minerExtract (request_id : String) (elapsed_ms : Int) (text : String) :
    Option MinerPADecision :=
  match parseJson (extractSpan text) with
  | none => some (minerDegraded request_id elapsed_ms)
  | some (.obj kvs) => minerBuild request_id elapsed_ms kvs
  | some _ => none

/-- Result of one `process_authorization` request in `src/miner.py`. -/
inductive MinerResult where
  | reasoningError (e : ReasoningServiceError) : MinerResult
  | uncaughtError : MinerResult
  | ok (d : MinerPADecision) : MinerResult
deriving Repr, DecidableEq

/-- `process_authorization` (the `/process` endpoint delegating to
`process_pa_with_claude`): the `client.messages.create` call sits
outside the `try`, so its failure propagates and extraction is never
reached. -/
def process_authorization (request_id : String) (elapsed_ms : Int)
    (outcome : ReasoningOutcome) : MinerResult :=
  match outcome with
  | .failure cause => .reasoningError ⟨cause⟩
  | .success text =>
    match minerExtract request_id elapsed_ms text with
    | some d => .ok d
    | none => .uncaughtError

/-! ## Validator scoring (`score_decision` in `src/miner.py`) -/

/-- Python truthiness of the `Optional[str]` field `appeal_guidance`:
truthy iff present and non-empty. -/
def truthyOptStr (s : Option String) : Bool :=
  match s with
  | none => false
  | some s => !s.isEmpty

/-- The value of the `score` variable in `score_decision` just before
the final `return min(1.0, max(0.0, score))`: the weighted rubric
accumulated in source order — confidence, rationale completeness,
alternatives, the denial-only appeal-guidance bonus — and then, when
ground truth is available, `score = min(1.0, score + accuracy_bonus)`
with `accuracy_bonus = 0.3` on polarity match and `-0.1` otherwise. -/
def score_preclamp (decision : MinerPADecision) (ground_truth : Option Bool) : ℚ :=
  let score : ℚ := 0
  let score := score + decision.confidence * (4/10)
  let score := score + min ((decision.rationale.length : ℚ) / 200) 1 * (3/10)
  let score := score + min ((decision.suggested_alternatives.length : ℚ) / 3) 1 * (2/10)
  let score :=
    if !decision.approved && truthyOptStr decision.appeal_guidance then score + 1/10
    else score
  match ground_truth with
  | some gt =>
    min 1 (score + (if decision.approved = gt then 3/10 else -(1/10)))
  | none => score

/-- `score_decision(decision, ground_truth)` from `src/miner.py`:
the pre-clamp rubric followed by `min(1.0, max(0.0, score))`. -/
def score_decision (decision : MinerPADecision) (ground_truth : Option Bool) : ℚ :=
  min 1 (max 0 (score_preclamp decision ground_truth))

/-- Modelled from the spec: the §4.5 rubric as one raw weighted sum
(steps 1–5 in order, with no intermediate clamp), to be compared with
the source's `score_decision` under a single final clamp. -/
def rubricSum (decision : MinerPADecision) (ground_truth : Option Bool) : ℚ :=
  decision.confidence * (4/10)
  + min ((decision.rationale.length : ℚ) / 200) 1 * (3/10)
  + min ((decision.suggested_alternatives.length : ℚ) / 3) 1 * (2/10)
  + (if !decision.approved && truthyOptStr decision.appeal_guidance then 1/10 else 0)
  + (match ground_truth with
     | some gt => if decision.approved = gt then 3/10 else -(1/10)
     | none => 0)

/-- Replace only the confidence of a miner decision (used to state
monotonicity of the score in `confidence` with all else fixed). -/
def withConfidence (decision : MinerPADecision) (c : ℚ) : MinerPADecision :=
  ⟨decision.request_id, decision.approved, decision.rationale, c,
   decision.suggested_alternatives, decision.appeal_guidance,
   decision.processing_time_ms⟩

/-! ## Python value rendering inside f-strings

The prompts interpolate Python values (`Optional[str]`, lists, the
coverage dict) via `str(...)`.  String `repr` quoting is modelled
without escape handling, and a non-integral float is rendered as a
fraction — neither corner is exercised by any claim. -/

/-- Python `repr` of a string (single-quoted). -/
def pyReprStr (s : String) : String := "\x27" ++ s ++ "\x27"

/-- Python `repr` of a list of strings. -/
def pyReprStrList (l : List String) : String :=
  "[" ++ String.intercalate ", " (l.map pyReprStr) ++ "]"

/-- Python rendering of a JSON number. -/
def pyReprNum (q : ℚ) : String :=
  if q.den = 1 then toString q.num else toString q.num ++ "/" ++ toString q.den

mutual

/-- Python `str`/`repr` of a decoded JSON value (dicts and lists print
with `repr` elements, `None`/`True`/`False` in Python spelling). -/
def pyReprJson : Json → String
  | .null => "None"
  | .bool true => "True"
  | .bool false => "False"
  | .num q => pyReprNum q
  | .str s => pyReprStr s
  | .arr elems => "[" ++ String.intercalate ", " (pyReprJsonList elems) ++ "]"
  | .obj fields => "\x7b" ++ String.intercalate ", " (pyReprJsonFields fields) ++ "\x7d"

/-- `repr` of the elements of a JSON array. -/
def pyReprJsonList : List Json → List String
  | [] => []
  | j :: rest => pyReprJson j :: pyReprJsonList rest

/-- `repr` of the key/value pairs of a JSON object. -/
def pyReprJsonFields : List (String × Json) → List String
  | [] => []
  | (k, v) :: rest => (pyReprStr k ++ ": " ++ pyReprJson v) :: pyReprJsonFields rest

end

/-- Python `x or default` on an `Optional[str]`: the default replaces
both `None` and the empty string. -/
def orElseStr (v : Option String) (default : String) : String :=
  match v with
  | none => default
  | some s => if s.isEmpty then default else s

/-- Python `str(request.previous_treatments or [])`: `None` and `[]`
both render as `[]`. -/
def orElseListRepr (v : Option (List String)) : String :=
  match v with
  | none => "[]"
  | some [] => "[]"
  | some l => pyReprStrList l

/-! ## Prompt synthesis in `src/agent.py` -/

/-- The prompt f-string of `submit_prior_auth`, rendered from the
generated request id, the request fields, the `PA_CRITERIA_DB` entry
(`criteria_info.get(...)` with `"unknown"` / `[]` defaults), and the
coverage dict. -/
def renderAgentPrompt (request_id : String) (request : AgentPARequest)
    (criteria_info : Option CriteriaInfo) (insurance_criteria : Json) : String :=
  "You are an AI prior authorization decision engine on the Bittensor TAO subnet.\n" ++
  "Process this PA request using evidence-based medical criteria and insurance guidelines.\n" ++
  "\n" ++
  "Request ID: " ++ request_id ++ "\n" ++
  "Patient Age: " ++ toString request.patient_age ++ "\n" ++
  "Diagnosis ICD-10: " ++ request.diagnosis_code ++ " - " ++
    (match criteria_info with
     | none => "unknown"
     | some ci => ci.name) ++ "\n" ++
  "Procedure/Medication: " ++ request.procedure_code ++ " / " ++
    orElseStr request.medication "N/A" ++ "\n" ++
  "Insurance Plan: " ++ request.insurance_plan ++ "\n" ++
  "Clinical Notes: " ++ orElseStr request.clinical_notes "not provided" ++ "\n" ++
  "Previous Treatments: " ++ orElseListRepr request.previous_treatments ++ "\n" ++
  "Known PA Criteria for this diagnosis: " ++
    (match criteria_info with
     | none => "[]"
     | some ci => pyReprStrList ci.common_criteria) ++ "\n" ++
  "CMS Coverage Data: " ++ pyReprJson insurance_criteria ++ "\n" ++
  "\n" ++
  "Make a prior authorization decision. Respond as JSON:\n" ++
  "\x7b\n" ++
  "  \"status\": \"APPROVED/DENIED/PENDING_INFO\",\n" ++
  "  \"decision\": \"brief decision statement\",\n" ++
  "  \"rationale\": \"detailed clinical rationale\",\n" ++
  "  \"criteria_met\": [\"criterion1\"],\n" ++
  "  \"criteria_missing\": [\"missing1\"],\n" ++
  "  \"alternative_recommendations\": [\"alternative1\"],\n" ++
  "  \"appeal_guidance\": \"guidance if denied, null if approved\",\n" ++
  "  \"confidence\": 0.0\n" ++
  "\x7d"

/-! ## Prompt synthesis in `src/miner.py` -/

/-- The single-entry static `PAYER_GUIDELINES` table. -/
def defaultGuidelines : String :=
  "\n    Standard prior authorization criteria:\n" ++
  "    - Medical necessity must be established\n" ++
  "    - Conservative treatments must have been attempted first\n" ++
  "    - Diagnosis must align with requested procedure/medication\n" ++
  "    - Patient age and comorbidities must be considered\n" ++
  "    - Cost-effective alternatives should be evaluated\n    "

/-- Association-list lookup used for `PAYER_GUIDELINES.get`. -/
def strLookup (kvs : List (String × String)) (k : String) : Option String :=
  match kvs with
  | [] => none
  | (k₂, v) :: rest => if k₂ = k then some v else strLookup rest k

/-- `PAYER_GUIDELINES` of `src/miner.py`. -/
def PAYER_GUIDELINES : List (String × String) := [("default", defaultGuidelines)]

/-- `PAYER_GUIDELINES.get(request.insurance_plan, PAYER_GUIDELINES["default"])`. -/
def payerGuidelinesFor (plan : String) : String :=
  match strLookup PAYER_GUIDELINES plan with
  | some g => g
  | none => defaultGuidelines

/-- Python `', '.join(xs) if xs else 'None documented'` on the
`Optional[list[str]]` field `prior_treatments`. -/
def joinOrNone (l : Option (List String)) : String :=
  match l with
  | none => "None documented"
  | some [] => "None documented"
  | some l => String.intercalate ", " l

/-- The prompt f-string of `process_pa_with_claude`, a function of the
request fields alone. -/
def renderMinerPrompt (request : MinerPARequest) : String :=
  "You are a clinical prior authorization specialist AI.\n    \n" ++
  "Review this PA request against evidence-based medical guidelines:\n" ++
  "\n" ++
  "Patient: " ++ toString request.patient_age ++ " years old\n" ++
  "Diagnosis (ICD-10): " ++ String.intercalate ", " request.diagnosis_codes ++ "\n" ++
  "Requested Procedure/Service (CPT): " ++
    String.intercalate ", " request.procedure_codes ++ "\n" ++
  "Medication: " ++ orElseStr request.medication "N/A" ++ "\n" ++
  "Prior treatments tried: " ++ joinOrNone request.prior_treatments ++ "\n" ++
  "Clinical Notes: " ++ request.clinical_notes ++ "\n" ++
  "Insurance Plan: " ++ request.insurance_plan ++ "\n" ++
  "\n" ++
  "Payer Guidelines:\n" ++
  payerGuidelinesFor request.insurance_plan ++ "\n" ++
  "\n" ++
  "Provide your decision as JSON:\n" ++
  "\x7b\n" ++
  "  \"approved\": true/false,\n" ++
  "  \"rationale\": \"clinical reasoning in 2-3 sentences\",\n" ++
  "  \"confidence\": 0.0-1.0,\n" ++
  "  \"suggested_alternatives\": [\"alternative1\", \"alternative2\"],\n" ++
  "  \"appeal_guidance\": \"if denied, what additional info would support appeal\"\n" ++
  "\x7d\n" ++
  "\n" ++
  "Base your decision purely on medical necessity criteria and clinical evidence."

/-! ## Request-scoped runs

A run bundles the per-request state a handler observes: the clock
readings, the random uuid suffix drawn for the request id, the request
body, and the outcomes of the two outbound calls.  Two runs over the
same request may differ in clock values, drawn uuid, and remote
outcomes. -/

/-- One `submit_prior_auth` request in `src/agent.py`.  `uuidSuffix`
models `str(uuid4())[:8].upper()`. -/
structure AgentRun where
  startTimeMs : Int
  endTimeMs : Int
  uuidSuffix : String
  request : AgentPARequest
  coverageOutcome : CoverageOutcome
  reasoningOutcome : ReasoningOutcome

/-- The generated request id `f"PA-..."` of a run. -/
def AgentRun.requestId (run : AgentRun) : String := "PA-" ++ run.uuidSuffix

/-- The prompt rendered by a `submit_prior_auth` run (the coverage dict
is computed from the run's coverage outcome, the criteria from the
static table). -/
def agentPromptOfRun (run : AgentRun) : String :=
  renderAgentPrompt run.requestId run.request
    (criteriaLookup PA_CRITERIA_DB run.request.diagnosis_code)
    (verify_insurance_criteria run.request.insurance_plan run.request.procedure_code
      run.coverageOutcome)

/-- The response produced by a `submit_prior_auth` run. -/
def agentSubmitOfRun (run : AgentRun) : AgentResult :=
  submit_prior_auth run.requestId (run.endTimeMs - run.startTimeMs)
    run.reasoningOutcome

/-- One `process_authorization` request in `src/miner.py`. -/
structure MinerRun where
  startTimeMs : Int
  endTimeMs : Int
  request : MinerPARequest
  reasoningOutcome : ReasoningOutcome

/-- The prompt rendered by a `process_pa_with_claude` run. -/
def minerPromptOfRun (run : MinerRun) : String :=
  renderMinerPrompt run.request

/-- The response produced by a `process_authorization` run. -/
def minerProcessOfRun (run : MinerRun) : MinerResult :=
  process_authorization run.request.request_id (run.endTimeMs - run.startTimeMs)
    run.reasoningOutcome

/-! ## Span lemmas

What the Python slice `text[text.find("\x7b") : text.rfind("\x7d") + 1]`
yields when one of the braces is absent: the empty string, or the single
closing brace — neither of which `json.loads` accepts. -/

theorem findCharAux_eq_none {cs : List Char} {t : Char} (h : t ∉ cs) (i : Nat) :
    findCharAux cs t i = none := by
  induction cs generalizing i with
  | nil => rfl
  | cons c rest ih =>
    simp only [List.mem_cons, not_or] at h
    have hc : ¬ (c = t) := fun hh => h.1 hh.symm
    simp only [findCharAux, if_neg hc]
    exact ih h.2 _

theorem findCharAux_lower {cs : List Char} {t : Char} {i j : Nat}
    (h : findCharAux cs t i = some j) : i ≤ j := by
  induction cs generalizing i with
  | nil => simp [findCharAux] at h
  | cons c rest ih =>
    simp only [findCharAux] at h
    by_cases hc : c = t
    · rw [if_pos hc] at h
      injection h with h
      omega
    · rw [if_neg hc] at h
      have := ih h
      omega

theorem findCharAux_bound {cs : List Char} {t : Char} {i j : Nat}
    (h : findCharAux cs t i = some j) : j < i + cs.length := by
  induction cs generalizing i with
  | nil => simp [findCharAux] at h
  | cons c rest ih =>
    simp only [findCharAux] at h
    by_cases hc : c = t
    · rw [if_pos hc] at h
      injection h with h
      simp only [List.length_cons]
      omega
    · rw [if_neg hc] at h
      have := ih h
      simp only [List.length_cons]
      omega

theorem findCharAux_zero_head {c : Char} {rest : List Char} {t : Char}
    (h : findCharAux (c :: rest) t 0 = some 0) : c = t := by
  by_cases hc : c = t
  · exact hc
  · simp only [findCharAux, if_neg hc] at h
    have := findCharAux_lower h
    omega

theorem drop_len_sub_one_append (l : List Char) (c : Char) :
    (l ++ [c]).drop ((l ++ [c]).length - 1) = [c] := by
  have h : (l ++ [c]).length - 1 = l.length := by simp
  rw [h, List.drop_left]

theorem parseJson_empty : parseJson ⟨[]⟩ = none := rfl

theorem parseJson_close_brace : parseJson ⟨['\x7d']⟩ = none := rfl

/-- When the completion lacks an opening or a closing brace, the
extracted span cannot decode: it is `""` or `"\x7d"`. -/
theorem parseJson_extractSpan_of_no_brace {s : String}
    (h : '\x7b' ∉ s.data ∨ '\x7d' ∉ s.data) :
    parseJson (extractSpan s) = none := by
  rcases h with h | h
  · -- no opening brace: find = -1
    have hfind : pyFind s '\x7b' = -1 := by
      simp [pyFind, findCharAux_eq_none h]
    unfold extractSpan pySlice
    rw [hfind]
    rcases hr : findCharAux s.data.reverse '\x7d' 0 with _ | i
    · -- no closing brace either: rfind = -1, slice end index 0
      have hrf : pyRfind s '\x7d' = -1 := by simp [pyRfind, hr]
      rw [hrf]
      have hb : pySliceNorm s.data.length (-1 + 1) = 0 := by
        simp [pySliceNorm]
      rw [hb]
      simp only [Nat.zero_sub, List.take_zero]
      exact parseJson_empty
    · -- rfind found the last closing brace at reversed index i
      have hi : i < s.data.length := by
        have := findCharAux_bound hr
        simpa using this
      have hlen : 1 ≤ s.data.length := by omega
      have hrf : pyRfind s '\x7d' = ((s.data.length - 1 - i : Nat) : Int) := by
        simp [pyRfind, hr]
      rw [hrf]
      have ha : pySliceNorm s.data.length (-1) = s.data.length - 1 := by
        simp only [pySliceNorm, if_pos (by omega : (-1 : Int) < 0)]
        omega
      have hb : pySliceNorm s.data.length (((s.data.length - 1 - i : Nat) : Int) + 1)
          = s.data.length - i := by
        simp only [pySliceNorm]
        rw [if_neg (by omega)]
        omega
      rw [ha, hb]
      by_cases hizero : i = 0
      · -- the last character of the text is the closing brace
        subst hizero
        rcases hrev : s.data.reverse with _ | ⟨c, rest⟩
        · rw [hrev] at hr
          simp [findCharAux] at hr
        · rw [hrev] at hr
          have hc : c = '\x7d' := findCharAux_zero_head hr
          have hsplit : s.data = rest.reverse ++ [c] := by
            have := congrArg List.reverse hrev
            simpa using this
          have htake : s.data.length - 0 - (s.data.length - 1) = 1 := by omega
          rw [htake, hsplit, drop_len_sub_one_append, List.take_one]
          subst hc
          exact parseJson_close_brace
      · -- the closing brace is not last: the slice is empty
        have htake : (s.data.length - i) - (s.data.length - 1) = 0 := by omega
        rw [htake]
        simp only [List.take_zero]
        exact parseJson_empty
  · -- no closing brace: rfind = -1, slice end index 0, slice empty
    have hrfind : pyRfind s '\x7d' = -1 := by
      have hmem : '\x7d' ∉ s.data.reverse := by simpa using h
      simp [pyRfind, findCharAux_eq_none hmem]
    unfold extractSpan pySlice
    rw [hrfind]
    have hb : pySliceNorm s.data.length (-1 + 1) = 0 := by
      simp [pySliceNorm]
    rw [hb]
    simp only [Nat.zero_sub, List.take_zero]
    exact parseJson_empty

/-! ## Degradation lemmas -/

/-- The degraded `PADecision` the agent returns when the span does not
decode: `PENDING_INFO`, manual-review decision text, the raw completion
as rationale, one sentinel `criteria_missing` entry, no alternatives,
confidence `0.3`. -/
def agentDegradedDecision (request_id : String) (processing_time_ms : Int)
    (text : String) : PADecision :=
  ⟨request_id, "PENDING_INFO", "Manual review required", text, [],
   ["Unable to parse decision"], [], none, 3/10, processing_time_ms⟩

theorem agentBuild_degradedDict (rid : String) (ms : Int) (text : String) :
    agentBuild rid ms (agentDegradedDict text) = some (agentDegradedDecision rid ms text) :=
  rfl

theorem agentExtract_degraded (rid : String) (ms : Int) (text : String)
    (hp : parseJson (extractSpan text) = none) :
    agentExtract rid ms text = some (agentDegradedDecision rid ms text) := by
  unfold agentExtract
  rw [hp]
  rfl

theorem submit_prior_auth_degraded (rid : String) (ms : Int) (text : String)
    (hp : parseJson (extractSpan text) = none) :
    submit_prior_auth rid ms (.success text) = .ok (agentDegradedDecision rid ms text) := by
  simp only [submit_prior_auth]
  rw [agentExtract_degraded rid ms text hp]

theorem minerExtract_degraded (rid : String) (ms : Int) (text : String)
    (hp : parseJson (extractSpan text) = none) :
    minerExtract rid ms text = some (minerDegraded rid ms) := by
  unfold minerExtract
  rw [hp]

theorem process_authorization_degraded (rid : String) (ms : Int) (text : String)
    (hp : parseJson (extractSpan text) = none) :
    process_authorization rid ms (.success text) = .ok (minerDegraded rid ms) := by
  simp only [process_authorization]
  rw [minerExtract_degraded rid ms text hp]

/-! ## Field-default lemmas for the extractors -/

/-- Every `result.get` default of the agent's `PADecision(...)` call:
a key absent from the payload yields the corresponding per-field
default in the returned decision. -/
theorem agentBuild_defaults (rid : String) (ms : Int)
    (kvs : List (String × Json)) (d : PADecision)
    (hd : agentBuild rid ms kvs = some d) :
    (getKey kvs "status" = none → d.status = "PENDING_INFO")
    ∧ (getKey kvs "decision" = none → d.decision = "")
    ∧ (getKey kvs "rationale" = none → d.rationale = "")
    ∧ (getKey kvs "criteria_met" = none → d.criteria_met = [])
    ∧ (getKey kvs "criteria_missing" = none → d.criteria_missing = [])
    ∧ (getKey kvs "alternative_recommendations" = none → d.alternative_recommendations = [])
    ∧ (getKey kvs "appeal_guidance" = none → d.appeal_guidance = none)
    ∧ (getKey kvs "confidence" = none → d.confidence = 1/2) := by
  unfold agentBuild at hd
  split at hd
  · next st de ra met mis alt ag conf heq₁ heq₂ heq₃ heq₄ heq₅ heq₆ heq₇ heq₈ =>
    injection hd with hd
    subst hd
    refine ⟨?_, ?_, ?_, ?_, ?_, ?_, ?_, ?_⟩ <;> intro habs
    · simp [getD, habs, asStr] at heq₁
      simp [heq₁]
    · simp [getD, habs, asStr] at heq₂
      simp [heq₂]
    · simp [getD, habs, asStr] at heq₃
      simp [heq₃]
    · simp [getD, habs, asStrList, asStrList.strElems] at heq₄
      simp [heq₄]
    · simp [getD, habs, asStrList, asStrList.strElems] at heq₅
      simp [heq₅]
    · simp [getD, habs, asStrList, asStrList.strElems] at heq₆
      simp [heq₆]
    · simp [getD, habs, asOptStr] at heq₇
      simp [heq₇]
    · simp [getD, habs, asNum] at heq₈
      simp [heq₈]
  · exact absurd hd (by simp)

/-- The supplied-confidence case: a numeric `confidence` in the payload
is passed through to the decision unchanged — no clamping happens. -/
theorem agentBuild_confidence_passthrough (rid : String) (ms : Int)
    (kvs : List (String × Json)) (q : ℚ) (d : PADecision)
    (hd : agentBuild rid ms kvs = some d)
    (hpres : getKey kvs "confidence" = some (.num q)) : d.confidence = q := by
  unfold agentBuild at hd
  split at hd
  · next st de ra met mis alt ag conf heq₁ heq₂ heq₃ heq₄ heq₅ heq₆ heq₇ heq₈ =>
    injection hd with hd
    subst hd
    simp [getD, hpres, asNum] at heq₈
    simp [heq₈]
  · exact absurd hd (by simp)

/-- Every `decision_json.get` default of the miner's `PADecision(...)`
call. -/
theorem minerBuild_defaults (rid : String) (ms : Int)
    (kvs : List (String × Json)) (d : MinerPADecision)
    (hd : minerBuild rid ms kvs = some d) :
    (getKey kvs "approved" = none → d.approved = false)
    ∧ (getKey kvs "rationale" = none → d.rationale = "")
    ∧ (getKey kvs "confidence" = none → d.confidence = 1/2)
    ∧ (getKey kvs "suggested_alternatives" = none → d.suggested_alternatives = [])
    ∧ (getKey kvs "appeal_guidance" = none → d.appeal_guidance = none) := by
  unfold minerBuild at hd
  split at hd
  · next ap ra conf alt ag heq₁ heq₂ heq₃ heq₄ heq₅ =>
    injection hd with hd
    subst hd
    refine ⟨?_, ?_, ?_, ?_, ?_⟩ <;> intro habs
    · simp [getD, habs, asBool] at heq₁
      simp [heq₁]
    · simp [getD, habs, asStr] at heq₂
      simp [heq₂]
    · simp [getD, habs, asNum] at heq₃
      simp [heq₃]
    · simp [getD, habs, asStrList, asStrList.strElems] at heq₄
      simp [heq₄]
    · simp [getD, habs, asOptStr] at heq₅
      simp [heq₅]
  · exact absurd hd (by simp)

/-- Miner counterpart of the confidence passthrough. -/
theorem minerBuild_confidence_passthrough (rid : String) (ms : Int)
    (kvs : List (String × Json)) (q : ℚ) (d : MinerPADecision)
    (hd : minerBuild rid ms kvs = some d)
    (hpres : getKey kvs "confidence" = some (.num q)) : d.confidence = q := by
  unfold minerBuild at hd
  split at hd
  · next ap ra conf alt ag heq₁ heq₂ heq₃ heq₄ heq₅ =>
    injection hd with hd
    subst hd
    simp [getD, hpres, asNum] at heq₃
    simp [heq₃]
  · exact absurd hd (by simp)

/-- `AppealAnalysis(appeal_id=..., **result)` applies no defaults: a
parsed object missing any of the five model fields makes the call
raise. -/
theorem appealBuild_none_of_missing (aid : String) (kvs : List (String × Json))
    (h : getKey kvs "likelihood_of_success" = none
      ∨ getKey kvs "strongest_arguments" = none
      ∨ getKey kvs "required_documentation" = none
      ∨ getKey kvs "recommended_approach" = none
      ∨ getKey kvs "estimated_review_days" = none) :
    appealBuild aid kvs = none := by
  unfold appealBuild
  split
  · split
    · rcases h with h | h | h | h | h <;> simp_all
    · rfl
  · rfl

/-! ## Scoring lemmas -/

/-- An inner `min(1.0, ·)` is absorbed by the outer
`min(1.0, max(0.0, ·))` clamp. -/
theorem clamp_min_absorb (x : ℚ) : min 1 (max 0 (min 1 x)) = min 1 (max 0 x) := by
  rcases le_total x 1 with h | h
  · rw [min_eq_right h]
  · rw [min_eq_left h]
    rw [max_eq_right (by linarith : (0 : ℚ) ≤ x),
        max_eq_right (by norm_num : (0 : ℚ) ≤ 1)]
    rw [min_eq_left h, min_self]

/-- Without ground truth the pre-clamp score is the raw rubric sum. -/
theorem score_preclamp_none (d : MinerPADecision) :
    score_preclamp d none = rubricSum d none := by
  simp only [score_preclamp, rubricSum]
  split_ifs <;> ring

/-- With ground truth the pre-clamp score is the raw rubric sum under
the intermediate `min(1.0, ·)` of the accuracy step. -/
theorem score_preclamp_some (d : MinerPADecision) (g : Bool) :
    score_preclamp d (some g) = min 1 (rubricSum d (some g)) := by
  simp only [score_preclamp, rubricSum]
  congr 1
  split_ifs <;> ring

/-- The pre-clamp score is monotone in confidence, all other fields and
the ground-truth argument fixed. -/
theorem score_preclamp_mono_confidence (d : MinerPADecision) (c₁ c₂ : ℚ)
    (gt : Option Bool) (h : c₁ ≤ c₂) :
    score_preclamp (withConfidence d c₁) gt ≤ score_preclamp (withConfidence d c₂) gt := by
  have hc : c₁ * (4/10) ≤ c₂ * (4/10) :=
    mul_le_mul_of_nonneg_right h (by norm_num)
  simp only [score_preclamp, withConfidence]
  rcases gt with _ | g
  · split_ifs <;> linarith
  · apply min_le_min le_rfl
    split_ifs <;> linarith

/-- `min(1.0, max(0.0, ·))` is monotone. -/
theorem clamp_mono {x y : ℚ} (h : x ≤ y) : min 1 (max 0 x) ≤ min 1 (max 0 y) :=
  min_le_min le_rfl (max_le_max le_rfl h)

/-- For an approval, the pre-clamp score with matching ground truth
dominates the one with mismatching ground truth. -/
theorem score_preclamp_gt_le (d : MinerPADecision) (h : d.approved = true) :
    score_preclamp d (some false) ≤ score_preclamp d (some true) := by
  simp only [score_preclamp, h]
  apply min_le_min le_rfl
  split_ifs <;> simp_all <;> linarith

/-- Replacing the coverage outcome of a run (the coverage result feeds
only the prompt, never the decision extraction). -/
def AgentRun.withCoverage (run : AgentRun) (cov : CoverageOutcome) : AgentRun :=
  ⟨run.startTimeMs, run.endTimeMs, run.uuidSuffix, run.request, cov, run.reasoningOutcome⟩

/-! ## Claim theorems -/

/-- Claim C1 (corrected) — counterexample.  The literal
`process_authorization` (the miner pipeline) does NOT return the
degraded decision shape the claim describes: on a completion with no
brace pair it degrades to `approved = False` with confidence `0.0`
(and an error-message rationale), not to a `PENDING_INFO` decision
with confidence `0.3` and the raw completion as rationale. -/
theorem c1_counterexample :
    process_authorization "REQ-77" 42 (.success "I cannot produce a decision.")
      = .ok (minerDegraded "REQ-77" 42)
    ∧ (minerDegraded "REQ-77" 42).confidence = 0
    ∧ (0 : ℚ) ≠ 3/10 :=
  ⟨rfl, rfl, by norm_num⟩

/-- Claim C1 (corrected) — amended.  For every completion with no
`\x7b`/`\x7d` brace, or whose first-`\x7b`-to-last-`\x7d` span fails to
decode, neither pipeline raises: the agent's `submit_prior_auth`
returns exactly the degraded decision of the claim (`PENDING_INFO`,
manual-review decision text, raw completion as rationale, a single
sentinel `criteria_missing` entry, empty alternatives, confidence
`0.3`), while the miner's `process_authorization` returns its own
degraded decision with `approved = False` and confidence `0.0`. -/
theorem c1_degraded_extraction_amended (rid rid₂ : String) (ms ms₂ : Int)
    (completion : String)
    (h : '\x7b' ∉ completion.data ∨ '\x7d' ∉ completion.data ∨
      parseJson (extractSpan completion) = none) :
    submit_prior_auth rid ms (.success completion)
      = .ok (agentDegradedDecision rid ms completion)
    ∧ process_authorization rid₂ ms₂ (.success completion)
      = .ok (minerDegraded rid₂ ms₂) := by
  have hp : parseJson (extractSpan completion) = none := by
    rcases h with h | h | h
    · exact parseJson_extractSpan_of_no_brace (Or.inl h)
    · exact parseJson_extractSpan_of_no_brace (Or.inr h)
    · exact h
  exact ⟨submit_prior_auth_degraded rid ms completion hp,
    process_authorization_degraded rid₂ ms₂ completion hp⟩

/-- Claim C1 — witness: the amended theorem applied to a braceless
completion. -/
theorem c1_degraded_extraction_witness :
    submit_prior_auth "PA-AB12CD34" 250 (.success "I am unable to decide.")
      = .ok (agentDegradedDecision "PA-AB12CD34" 250 "I am unable to decide.")
    ∧ process_authorization "REQ-555" 250 (.success "I am unable to decide.")
      = .ok (minerDegraded "REQ-555" 250) :=
  c1_degraded_extraction_amended "PA-AB12CD34" "REQ-555" 250 250
    "I am unable to decide." (Or.inr (Or.inr rfl))

/-- Claim C2 (corrected) — counterexample.  A completion whose span
parses as a structured object that omits fields does NOT always yield a
well-typed result: in the appeal pipeline the object
`\x7b"likelihood_of_success": 1\x7d` parses, yet `analyze_appeal`
raises (no defaults are applied by
`AppealAnalysis(appeal_id=..., **result)`). -/
theorem c2_counterexample :
    (parseJson (extractSpan "\x7b\x22likelihood_of_success\x22: 1\x7d")).isSome = true
    ∧ analyze_appeal_extract "APL-XYZ123" "\x7b\x22likelihood_of_success\x22: 1\x7d" = none :=
  ⟨rfl, rfl⟩

/-- Claim C2 (corrected) — amended.  In the two authorization
extractors no payload field is required: every key absent from the
parsed object is filled with its per-field default (agent: status
`PENDING_INFO`, empty decision/rationale strings, empty lists, null
appeal guidance, confidence `0.5`; miner: `approved = False`, empty
rationale, confidence `0.5`, empty alternatives, null appeal
guidance).  In the appeal pipeline no defaults are applied: a parsed
object missing any of the five analysis fields makes the construction
fail instead of producing an analysis. -/
theorem c2_defaults_amended (rid rid₂ aid : String) (ms ms₂ : Int)
    (kvs : List (String × Json)) (d : PADecision) (d₂ : MinerPADecision) :
    (agentBuild rid ms kvs = some d →
      (getKey kvs "status" = none → d.status = "PENDING_INFO")
      ∧ (getKey kvs "decision" = none → d.decision = "")
      ∧ (getKey kvs "rationale" = none → d.rationale = "")
      ∧ (getKey kvs "criteria_met" = none → d.criteria_met = [])
      ∧ (getKey kvs "criteria_missing" = none → d.criteria_missing = [])
      ∧ (getKey kvs "alternative_recommendations" = none →
          d.alternative_recommendations = [])
      ∧ (getKey kvs "appeal_guidance" = none → d.appeal_guidance = none)
      ∧ (getKey kvs "confidence" = none → d.confidence = 1/2))
    ∧ (minerBuild rid₂ ms₂ kvs = some d₂ →
      (getKey kvs "approved" = none → d₂.approved = false)
      ∧ (getKey kvs "rationale" = none → d₂.rationale = "")
      ∧ (getKey kvs "confidence" = none → d₂.confidence = 1/2)
      ∧ (getKey kvs "suggested_alternatives" = none → d₂.suggested_alternatives = [])
      ∧ (getKey kvs "appeal_guidance" = none → d₂.appeal_guidance = none))
    ∧ ((getKey kvs "likelihood_of_success" = none
        ∨ getKey kvs "strongest_arguments" = none
        ∨ getKey kvs "required_documentation" = none
        ∨ getKey kvs "recommended_approach" = none
        ∨ getKey kvs "estimated_review_days" = none) →
      appealBuild aid kvs = none) :=
  ⟨fun hd => agentBuild_defaults rid ms kvs d hd,
   fun hd => minerBuild_defaults rid₂ ms₂ kvs d₂ hd,
   fun h => appealBuild_none_of_missing aid kvs h⟩

/-- Claim C2 — witness: the amended theorem applied to a payload that
only supplies `likelihood_of_success`: the agent extractor defaults the
absent `status`, and the appeal constructor fails. -/
theorem c2_defaults_witness :
    (⟨"PA-W2", "PENDING_INFO", "", "", [], [], [], none, 1/2, 4⟩ : PADecision).status
      = "PENDING_INFO"
    ∧ appealBuild "APL-W2" [("likelihood_of_success", Json.num 1)] = none := by
  have h := c2_defaults_amended "PA-W2" "R-W2" "APL-W2" 4 9
    [("likelihood_of_success", Json.num 1)]
    ⟨"PA-W2", "PENDING_INFO", "", "", [], [], [], none, 1/2, 4⟩
    ⟨"R-W2", false, "", 1/2, [], none, 9⟩
  exact ⟨(h.1 rfl).1 rfl, h.2.2 (Or.inr (Or.inl rfl))⟩

/-- Claim C3 (confirmed).  When the reasoning call itself fails, both
pipelines fail with the distinct `ReasoningServiceError` carrying the
underlying cause and return no decision (the extraction stage is never
reached); when the call succeeds but the completion does not decode,
both pipelines succeed with their degraded decisions — malformed model
output never makes them fail. -/
theorem c3_reasoning_failure_propagation (cause rid rid₂ : String) (ms ms₂ : Int) :
    submit_prior_auth rid ms (.failure cause) = .reasoningError ⟨cause⟩
    ∧ process_authorization rid₂ ms₂ (.failure cause) = .reasoningError ⟨cause⟩
    ∧ (∀ text, parseJson (extractSpan text) = none →
        submit_prior_auth rid ms (.success text)
          = .ok (agentDegradedDecision rid ms text)
        ∧ process_authorization rid₂ ms₂ (.success text)
          = .ok (minerDegraded rid₂ ms₂)) :=
  ⟨rfl, rfl, fun text hp =>
    ⟨submit_prior_auth_degraded rid ms text hp,
     process_authorization_degraded rid₂ ms₂ text hp⟩⟩

/-- Claim C3 — witness: a transport failure propagates as
`ReasoningServiceError`, and an undecodable completion still yields a
decision. -/
theorem c3_reasoning_failure_witness :
    submit_prior_auth "PA-ERR01" 3 (.failure "connection timed out")
      = .reasoningError ⟨"connection timed out"⟩
    ∧ process_authorization "REQ-ERR" 4 (.failure "connection timed out")
      = .reasoningError ⟨"connection timed out"⟩
    ∧ submit_prior_auth "PA-ERR01" 3 (.success "no payload")
      = .ok (agentDegradedDecision "PA-ERR01" 3 "no payload") := by
  have h := c3_reasoning_failure_propagation "connection timed out" "PA-ERR01" "REQ-ERR" 3 4
  exact ⟨h.1, h.2.1, (h.2.2 "no payload" rfl).1⟩

/-- Claim C4 (corrected) — counterexample.  A payload that supplies an
out-of-range confidence is NOT clamped by the extractor: the
completion carrying `"confidence": 2` yields a decision whose
confidence is `2`, not `1.0`. -/
theorem c4_counterexample :
    agentExtract "PA-TEST01" 7 "Result: \x7b\x22confidence\x22: 2\x7d"
      = some ⟨"PA-TEST01", "PENDING_INFO", "", "", [], [], [], none, 2, 7⟩
    ∧ ¬ ((2 : ℚ) ≤ 1) :=
  ⟨rfl, by norm_num⟩

/-- Claim C4 (corrected) — amended.  Both extractors set confidence to
`0.5` when the payload omits it, but perform no clamping: a supplied
numeric confidence is passed through to the decision unchanged, even
out-of-range values. -/
theorem c4_confidence_default_passthrough (rid rid₂ : String) (ms ms₂ : Int)
    (kvs : List (String × Json)) (q : ℚ) (d : PADecision) (d₂ : MinerPADecision) :
    (agentBuild rid ms kvs = some d →
      (getKey kvs "confidence" = none → d.confidence = 1/2)
      ∧ (getKey kvs "confidence" = some (.num q) → d.confidence = q))
    ∧ (minerBuild rid₂ ms₂ kvs = some d₂ →
      (getKey kvs "confidence" = none → d₂.confidence = 1/2)
      ∧ (getKey kvs "confidence" = some (.num q) → d₂.confidence = q)) :=
  ⟨fun hd => ⟨fun habs => (agentBuild_defaults rid ms kvs d hd).2.2.2.2.2.2.2 habs,
    fun hp => agentBuild_confidence_passthrough rid ms kvs q d hd hp⟩,
   fun hd => ⟨fun habs => (minerBuild_defaults rid₂ ms₂ kvs d₂ hd).2.2.1 habs,
    fun hp => minerBuild_confidence_passthrough rid₂ ms₂ kvs q d₂ hd hp⟩⟩

/-- Claim C4 — witness: the amended theorem applied to a payload with
`confidence = 1.7`, which is passed through as `1.7`. -/
theorem c4_confidence_default_witness :
    (⟨"PA-W4", "PENDING_INFO", "", "", [], [], [], none, 17/10, 6⟩ : PADecision).confidence
      = 17/10 := by
  have h := c4_confidence_default_passthrough "PA-W4" "R-W4" 6 7
    [("confidence", Json.num (17/10))] (17/10)
    ⟨"PA-W4", "PENDING_INFO", "", "", [], [], [], none, 17/10, 6⟩
    ⟨"R-W4", false, "", 17/10, [], none, 7⟩
  exact (h.1 rfl).2 rfl

/-- Claim C5 (confirmed).  For every decision and optional ground
truth, `score_decision` equals the single final clamp to `[0, 1]` of
the raw rubric sum evaluated in source order: confidence times `0.4`,
plus the rationale-length term times `0.3`, plus the alternatives term
times `0.2`, plus `0.1` exactly for a denial with non-null non-empty
appeal guidance, plus the ground-truth bonus `0.3` on polarity match
and `-0.1` otherwise (the code's intermediate `min(1.0, ·)` in the
ground-truth step is absorbed by the final clamp). -/
theorem c5_score_rubric_equivalence (d : MinerPADecision) (gt : Option Bool) :
    score_decision d gt = min 1 (max 0 (rubricSum d gt)) := by
  rcases gt with _ | g
  · rw [score_decision, score_preclamp_none]
  · rw [score_decision, score_preclamp_some, clamp_min_absorb]

/-- Claim C6 (confirmed).  The coverage lookup is total and absorbs
every failure: a transport error or timeout yields the fallback dict
carrying the original plan and procedure, a non-200 response yields
the not-found dict, a 200 response with a decodable body yields the
CMS dict with the raw criteria payload — and the authorization
pipeline's response is unchanged under any coverage outcome, so it
still succeeds when the coverage source fails. -/
theorem c6_coverage_lookup_absorbs_failures (plan procedure : String) :
    verify_insurance_criteria plan procedure .transportError
      = coverageFallback plan procedure
    ∧ (∀ status body, status ≠ 200 →
        verify_insurance_criteria plan procedure (.response status body)
          = coverageNotFound plan)
    ∧ (∀ j, verify_insurance_criteria plan procedure (.response 200 (some j))
        = coverageCms j)
    ∧ (∀ (run : AgentRun) (cov : CoverageOutcome),
        agentSubmitOfRun (run.withCoverage cov) = agentSubmitOfRun run) := by
  refine ⟨rfl, ?_, fun j => rfl, fun run cov => rfl⟩
  intro status body hs
  simp [verify_insurance_criteria, hs]

/-- Claim C6 — witness: the theorem applied to a concrete plan and
procedure at each outcome. -/
theorem c6_coverage_lookup_witness :
    verify_insurance_criteria "Aetna-Gold" "PT-EVAL" .transportError
      = coverageFallback "Aetna-Gold" "PT-EVAL"
    ∧ verify_insurance_criteria "Aetna-Gold" "PT-EVAL" (.response 404 none)
      = coverageNotFound "Aetna-Gold"
    ∧ verify_insurance_criteria "Aetna-Gold" "PT-EVAL" (.response 200 (some .null))
      = coverageCms .null := by
  have h := c6_coverage_lookup_absorbs_failures "Aetna-Gold" "PT-EVAL"
  exact ⟨h.1, h.2.1 404 none (by norm_num), h.2.2.1 .null⟩

set_option maxRecDepth 40000 in
/-- Claim C7 (corrected) — counterexample.  Two agent runs with
identical request fields, criteria reference and coverage outcome but
different drawn uuid suffixes render different prompts: the randomly
generated request id is embedded in the prompt text. -/
theorem c7_counterexample :
    agentPromptOfRun ⟨100, 450, "AAAAAAAA",
        ⟨45, "M54.5", "PT-EVAL", none, "Aetna-Gold",
          some "6 weeks PT completed, no improvement", none⟩,
        .transportError, .success "ok"⟩
    ≠ agentPromptOfRun ⟨100, 450, "BBBBBBBB",
        ⟨45, "M54.5", "PT-EVAL", none, "Aetna-Gold",
          some "6 weeks PT completed, no improvement", none⟩,
        .transportError, .success "ok"⟩ := by
  decide

/-- Claim C7 (corrected) — amended.  Prompt synthesis is deterministic
given the request fields, the criteria reference and coverage result
(both derived from the request and the coverage outcome), AND the
generated request identifier: two agent runs agreeing on those render
identical prompts regardless of clock values or reasoning outcome; the
miner prompt is deterministic given the request alone. -/
theorem c7_prompt_determinism_amended (r₁ r₂ : AgentRun) (m₁ m₂ : MinerRun)
    (hid : r₁.uuidSuffix = r₂.uuidSuffix) (hreq : r₁.request = r₂.request)
    (hcov : r₁.coverageOutcome = r₂.coverageOutcome)
    (hreq₂ : m₁.request = m₂.request) :
    agentPromptOfRun r₁ = agentPromptOfRun r₂
    ∧ minerPromptOfRun m₁ = minerPromptOfRun m₂ := by
  constructor
  · unfold agentPromptOfRun AgentRun.requestId
    rw [hid, hreq, hcov]
  · unfold minerPromptOfRun
    rw [hreq₂]

/-- Claim C7 — witness: the amended theorem applied to runs that differ
only in clock values and reasoning outcome. -/
theorem c7_prompt_determinism_witness :
    agentPromptOfRun ⟨0, 10, "CAFE0123",
        ⟨45, "M54.5", "PT-EVAL", none, "Aetna-Gold", none, none⟩,
        .transportError, .success "a"⟩
      = agentPromptOfRun ⟨5, 99, "CAFE0123",
        ⟨45, "M54.5", "PT-EVAL", none, "Aetna-Gold", none, none⟩,
        .transportError, .failure "x"⟩
    ∧ minerPromptOfRun ⟨0, 10,
        ⟨"R1", 45, ["M54.5"], ["97161"], none, "notes", "default", none⟩,
        .success "a"⟩
      = minerPromptOfRun ⟨7, 8,
        ⟨"R1", 45, ["M54.5"], ["97161"], none, "notes", "default", none⟩,
        .failure "x"⟩ :=
  c7_prompt_determinism_amended
    ⟨0, 10, "CAFE0123", ⟨45, "M54.5", "PT-EVAL", none, "Aetna-Gold", none, none⟩,
      .transportError, .success "a"⟩
    ⟨5, 99, "CAFE0123", ⟨45, "M54.5", "PT-EVAL", none, "Aetna-Gold", none, none⟩,
      .transportError, .failure "x"⟩
    ⟨0, 10, ⟨"R1", 45, ["M54.5"], ["97161"], none, "notes", "default", none⟩,
      .success "a"⟩
    ⟨7, 8, ⟨"R1", 45, ["M54.5"], ["97161"], none, "notes", "default", none⟩,
      .failure "x"⟩
    rfl rfl rfl rfl

/-- Claim C8 (confirmed).  With all other fields and the ground-truth
argument fixed, the score is monotonically non-decreasing in
confidence over `[0, 1]`. -/
theorem c8_score_monotone_confidence (d : MinerPADecision) (c₁ c₂ : ℚ)
    (gt : Option Bool) (h0 : 0 ≤ c₁) (h : c₁ ≤ c₂) (h1 : c₂ ≤ 1) :
    score_decision (withConfidence d c₁) gt
      ≤ score_decision (withConfidence d c₂) gt := by
  rw [score_decision, score_decision]
  exact clamp_mono (score_preclamp_mono_confidence d c₁ c₂ gt h)

/-- Claim C8 — witness: the theorem applied at confidences `0.3 ≤ 0.9`. -/
theorem c8_score_monotone_witness :
    (0 : ℚ) ≤ 3/10 ∧ (3/10 : ℚ) ≤ 9/10 ∧ (9/10 : ℚ) ≤ 1
    ∧ score_decision (withConfidence ⟨"R", true, "ok", 0, [], none, 2⟩ (3/10)) none
      ≤ score_decision (withConfidence ⟨"R", true, "ok", 0, [], none, 2⟩ (9/10)) none :=
  ⟨by norm_num, by norm_num, by norm_num,
   c8_score_monotone_confidence ⟨"R", true, "ok", 0, [], none, 2⟩ (3/10) (9/10) none
     (by norm_num) (by norm_num) (by norm_num)⟩

/-- Claim C9 (corrected) — counterexample.  For an approval with base
rubric sum `0.9` (confidence `1`, a 200-character rationale, three
alternatives), the values just before the final clamp are `1.0` under
matching ground truth and `0.8` under mismatching ground truth — a
difference of `0.2`, not `0.4`, because the ground-truth step applies
an intermediate `min(1.0, ·)`. -/
theorem c9_counterexample :
    score_preclamp ⟨"REQ-9", true, ⟨List.replicate 200 'x'⟩, 1, ["a", "b", "c"], none, 3⟩
        (some true)
      - score_preclamp ⟨"REQ-9", true, ⟨List.replicate 200 'x'⟩, 1, ["a", "b", "c"], none, 3⟩
        (some false)
      = 1/5
    ∧ (1/5 : ℚ) ≠ 2/5 := by
  constructor
  · have hlen : (⟨List.replicate 200 'x'⟩ : String).length = 200 := rfl
    norm_num [score_preclamp, truthyOptStr, hlen]
  · norm_num

/-- Claim C9 (corrected) — amended.  For every approval decision the
RAW rubric sum with matching ground truth exceeds the one with
mismatching ground truth by exactly `0.4` (`+0.3` versus `-0.1`), and
the final scores still satisfy the non-strict inequality; but the
value just before the final clamp can differ by less than `0.4`
because the ground-truth step already applies `min(1.0, ·)`. -/
theorem c9_ground_truth_margin_amended (d : MinerPADecision) (h : d.approved = true) :
    rubricSum d (some true) - rubricSum d (some false) = 2/5
    ∧ score_decision d (some false) ≤ score_decision d (some true) := by
  constructor
  · simp [rubricSum, h]
    ring_nf
  · rw [score_decision, score_decision]
    exact clamp_mono (score_preclamp_gt_le d h)

/-- Claim C9 — witness: the amended theorem applied to a concrete
approval. -/
theorem c9_ground_truth_margin_witness :
    rubricSum ⟨"R", true, "ok", 1/2, [], none, 2⟩ (some true)
      - rubricSum ⟨"R", true, "ok", 1/2, [], none, 2⟩ (some false) = 2/5 :=
  (c9_ground_truth_margin_amended ⟨"R", true, "ok", 1/2, [], none, 2⟩ rfl).1

/-- Claim C10 (confirmed).  `score_decision` is total and bounded on
its whole input type: whatever the confidence (also outside `[0, 1]`),
rationale, alternatives, appeal guidance and optional ground truth,
the returned score lies in `[0, 1]`. -/
theorem c10_score_total_bounded (d : MinerPADecision) (gt : Option Bool) :
    0 ≤ score_decision d gt ∧ score_decision d gt ≤ 1 := by
  constructor
  · rw [score_decision]
    exact le_min (by norm_num) (le_max_left 0 _)
  · rw [score_decision]
    exact min_le_left _ _
